import Mathlib

/-!
Shallow embedding of `cleanup-registry.py` (docker-registry-cleaner).

The embedded core is `get_image_created_date` (manifest negotiation, multi-arch
handling and the four-step creation-date fallback chain) together with the
per-tag decision logic of `main`'s cleanup loop.

Modelling conventions:
* Network I/O is an oracle (`World`) mapping requests to results.  A raised
  Python exception (network error from `requests.get`, a JSON decode error
  from `response.json()`, a `ValueError` from `datetime.fromisoformat`, ...)
  is `Except.error ()`; the single outer `try/except` of
  `get_image_created_date` is the final `match` in that definition.
* Timestamp strings are modelled structurally: an ISO-8601 string is either
  `IsoStr.malformed` (parsing raises) or `IsoStr.valid wall tz` carrying its
  wall-clock instant in seconds and its timezone suffix.  The composition of
  Python's `s.replace('Z', '+00:00')` with `datetime.fromisoformat` is the
  single operation `pyFromIsoZ` (the `Z` suffix becomes offset `+00:00`).
  A field that Python treats as falsy-absent (missing key or empty string
  guarded by `if created_str:`) is modelled as `none`.
* `datetime` values are `PyDateTime`: a wall-clock instant plus an optional
  UTC-offset (`tzinfo`), in seconds.  `d.replace(tzinfo=None)` is `stripTz`.
-/

/-- Timezone suffix of an ISO-8601 timestamp string: a trailing `Z` or an
explicit numeric offset (in seconds). -/
inductive TzSpec where
  | z : TzSpec
  | off (secs : Int) : TzSpec
deriving DecidableEq, Repr

/-- An ISO-8601 timestamp string, structurally: either unparseable
(`datetime.fromisoformat` raises) or a wall-clock instant with an optional
timezone suffix. -/
inductive IsoStr where
  | valid (wall : Int) (tz : Option TzSpec) : IsoStr
  | malformed : IsoStr
deriving DecidableEq, Repr

/-- A Python `datetime`: wall-clock seconds plus optional tzinfo offset
(seconds); `tzinfo = none` is a naive datetime. -/
structure PyDateTime where
  wall : Int
  tzinfo : Option Int
deriving DecidableEq, Repr

/-- An HTTP `Last-Modified` header value: either unparseable
(`parsedate_to_datetime` raises) or a datetime with optional tz. -/
inductive LMStr where
  | valid (wall : Int) (tzinfo : Option Int) : LMStr
  | malformed : LMStr
deriving DecidableEq, Repr

/-- Decoded payload of a `v1Compatibility` JSON string: the only field the
script reads is `created`. -/
structure V1Blob where
  created : Option IsoStr
deriving DecidableEq, Repr

/-- A `v1Compatibility` entry value: a JSON string that `json.loads` either
decodes to a `V1Blob` or raises on. -/
inductive V1Str where
  | valid (blob : V1Blob) : V1Str
  | malformed : V1Str
deriving DecidableEq, Repr

/-- An entry of a (legacy v1) manifest's `history` array. -/
structure HistEntry where
  v1Compatibility : Option V1Str
deriving DecidableEq, Repr

/-- An entry of a manifest list / OCI index's `manifests` array (the script
only reads its `digest`). -/
structure ManEntry where
  digest : String
deriving DecidableEq, Repr

/-- The `config` reference of a single-platform manifest. -/
structure ConfigRef where
  digest : String
deriving DecidableEq, Repr

/-- An entry of a config blob's `history` list. -/
structure CfgHistEntry where
  created : Option IsoStr
deriving DecidableEq, Repr

/-- A config blob: the script reads its `created` field and its `history`
list. -/
structure ConfigBlob where
  created : Option IsoStr
  history : Option (List CfgHistEntry)
deriving DecidableEq, Repr

/-- A manifest document, restricted to the keys the script reads. -/
structure Manifest where
  mediaType : Option String
  manifests : Option (List ManEntry)
  config : Option ConfigRef
  history : Option (List HistEntry)
deriving DecidableEq, Repr

/-- An HTTP response to a manifest request: status code, the
`Docker-Content-Digest` and `Last-Modified` headers, and the JSON body
(`Except.error` models `response.json()` raising). -/
structure ManifestResponse where
  status : Nat
  digestHeader : Option String
  lastModified : Option LMStr
  body : Except Unit Manifest

/-- An HTTP response to a blob request: status code and JSON body. -/
structure BlobResponse where
  status : Nat
  body : Except Unit ConfigBlob

/-- The three `Accept` media types of the negotiation loop, in order. -/
inductive AcceptType where
  | oci : AcceptType
  | dockerV2 : AcceptType
  | dockerV1 : AcceptType
deriving DecidableEq, Repr

/-- The ordered `manifest_types` list of `get_image_created_date`. -/
def ACCEPT_TYPES : List AcceptType := [.oci, .dockerV2, .dockerV1]

/-- Media type string of a Docker v2 manifest list. -/
def MANIFEST_LIST_V2 : String := "application/vnd.docker.distribution.manifest.list.v2+json"

/-- Media type string of an OCI image index. -/
def OCI_INDEX : String := "application/vnd.oci.image.index.v1+json"

/-- The network oracle for one `(repository, tag)` resolution: responses to
the tag-manifest request per `Accept` type, to the by-digest manifest
re-fetch, and to the config-blob request.  `Except.error ()` models
`requests.get` raising a transport error. -/
structure World where
  manifestResp : AcceptType → Except Unit ManifestResponse
  platformResp : String → Except Unit ManifestResponse
  blobResp : String → Except Unit BlobResponse

/-- `datetime.fromisoformat(s.replace('Z', '+00:00'))`: raises on a
malformed string; a trailing `Z` has been rewritten to the `+00:00`
offset before parsing. -/
def pyFromIsoZ (s : IsoStr) : Except Unit PyDateTime :=
  match s with
  | .malformed => .error ()
  | .valid wall tz =>
      .ok { wall := wall,
            tzinfo := tz.map (fun t => match t with | .z => 0 | .off secs => secs) }

/-- `d.replace(tzinfo=None)`: drops the tzinfo, keeping the wall-clock
fields unchanged (no offset conversion). -/
def stripTz (d : PyDateTime) : PyDateTime := { d with tzinfo := none }

/-- The repeated idiom
`datetime.fromisoformat(created_str.replace('Z', '+00:00')).replace(tzinfo=None)`. -/
def parse_created (s : IsoStr) : Except Unit PyDateTime :=
  match pyFromIsoZ s with
  | .error e => .error e
  | .ok d => .ok (stripTz d)

/-- `email.utils.parsedate_to_datetime` on a `Last-Modified` header value:
raises on garbage, otherwise yields the datetime (aware or naive). -/
def pyParsedate (s : LMStr) : Except Unit PyDateTime :=
  match s with
  | .malformed => .error ()
  | .valid wall tzinfo => .ok { wall := wall, tzinfo := tzinfo }

/-- `json.loads(history_entry['v1Compatibility'])`: raises on an invalid
JSON string. -/
def pyJsonLoads (s : V1Str) : Except Unit V1Blob :=
  match s with
  | .malformed => .error ()
  | .valid blob => .ok blob

/-- Result of the manifest content-negotiation loop. -/
inductive NegoRes where
  | notFound : NegoRes
  | noManifest : NegoRes
  | success (digest : Option String) (m : Manifest) (resp : ManifestResponse) : NegoRes

/-- The negotiation loop of `get_image_created_date`: try each `Accept`
type in order; a 404 returns immediately; a 200 captures the
`Docker-Content-Digest` header and decodes the body; any other status moves
on to the next type; exhausting the list leaves `manifest is None`. -/
def negotiate (w : World) : List AcceptType → Except Unit NegoRes
  | [] => .ok .noManifest
  | mt :: rest =>
    match w.manifestResp mt with
    | .error e => .error e
    | .ok resp =>
      if resp.status = 404 then .ok .notFound
      else if resp.status = 200 then
        match resp.body with
        | .error e => .error e
        | .ok m => .ok (.success resp.digestHeader m resp)
      else negotiate w rest

/-- `manifest.get('mediaType') in [MANIFEST_LIST_V2, OCI_INDEX]`. -/
def isIndexType (mt : Option String) : Bool :=
  match mt with
  | some s => (s == MANIFEST_LIST_V2) || (s == OCI_INDEX)
  | none => false

/-- Multi-arch handling: if the manifest is a list/index with a non-empty
`manifests` array, re-fetch the first entry by digest; a 200 replaces the
manifest, any other status keeps the index manifest — but `response` is
replaced by the re-fetch response either way. -/
def multiArch (w : World) (m0 : Manifest) (r0 : ManifestResponse) :
    Except Unit (Manifest × ManifestResponse) :=
  if isIndexType m0.mediaType then
    match m0.manifests with
    | some (e :: _) =>
      (match w.platformResp e.digest with
       | .error er => .error er
       | .ok r2 =>
         if r2.status = 200 then
           match r2.body with
           | .error er => .error er
           | .ok m2 => .ok (m2, r2)
         else .ok (m0, r2))
    | _ => .ok (m0, r0)
  else .ok (m0, r0)

/-- Scan of the config blob's `history` list: the first entry carrying a
`created` key is parsed (a parse failure raises). -/
def step1Hist : List CfgHistEntry → Except Unit (Option PyDateTime)
  | [] => .ok none
  | e :: rest =>
    match e.created with
    | some ts =>
      (match parse_created ts with
       | .error er => .error er
       | .ok d => .ok (some d))
    | none => step1Hist rest

/-- Method 1: fetch the config blob named by `manifest['config']['digest']`;
on a 200, use its `created` field, else scan its `history` list. -/
def step1 (w : World) (manifest : Manifest) : Except Unit (Option PyDateTime) :=
  match manifest.config with
  | none => .ok none
  | some cref =>
    match w.blobResp cref.digest with
    | .error er => .error er
    | .ok cres =>
      if cres.status = 200 then
        match cres.body with
        | .error er => .error er
        | .ok cfg =>
          match cfg.created with
          | some ts =>
            (match parse_created ts with
             | .error er => .error er
             | .ok d => .ok (some d))
          | none =>
            match cfg.history with
            | some hist => if hist.length > 0 then step1Hist hist else .ok none
            | none => .ok none
      else .ok none

/-- Method 2: `Last-Modified` header of the current `response` — consulted
only when the response is truthy (`requests.Response.__bool__` is
`status_code < 400`). -/
def step2 (response : ManifestResponse) : Except Unit (Option PyDateTime) :=
  if response.status < 400 then
    match response.lastModified with
    | some lm =>
      (match pyParsedate lm with
       | .error er => .error er
       | .ok d => .ok (some (stripTz d)))
    | none => .ok none
  else .ok none

/-- Method 3: scan the manifest's own `history` array for the first
`v1Compatibility` payload whose decoded JSON has a truthy `created` field. -/
def step3 : List HistEntry → Except Unit (Option PyDateTime)
  | [] => .ok none
  | e :: rest =>
    match e.v1Compatibility with
    | some v1 =>
      (match pyJsonLoads v1 with
       | .error er => .error er
       | .ok blob =>
         match blob.created with
         | some ts =>
           (match parse_created ts with
            | .error er => .error er
            | .ok d => .ok (some d))
         | none => step3 rest)
    | none => step3 rest

/-- Everything after a successful negotiation: multi-arch resolution, then
the date fallback chain; every successful return carries the digest captured
at negotiation time. -/
def resolveAfter (w : World) (digest : Option String) (m0 : Manifest)
    (r0 : ManifestResponse) : Except Unit (Option String × Option PyDateTime) :=
  match multiArch w m0 r0 with
  | .error e => .error e
  | .ok (manifest, response) =>
    match step1 w manifest with
    | .error e => .error e
    | .ok (some d) => .ok (digest, some d)
    | .ok none =>
      match step2 response with
      | .error e => .error e
      | .ok (some d) => .ok (digest, some d)
      | .ok none =>
        match (match manifest.history with
               | some h => step3 h
               | none => .ok none) with
        | .error e => .error e
        | .ok (some d) => .ok (digest, some d)
        | .ok none => .ok (digest, none)

/-- The body of `get_image_created_date` inside its `try`. -/
def getAux (w : World) : Except Unit (Option String × Option PyDateTime) :=
  match negotiate w ACCEPT_TYPES with
  | .error e => .error e
  | .ok .notFound => .ok (none, none)
  | .ok .noManifest => .ok (none, none)
  | .ok (.success d m r) => resolveAfter w d m r

/-- `get_image_created_date`: the outer `except Exception` turns any raised
failure into `(None, None)`. -/
def get_image_created_date (w : World) : Option String × Option PyDateTime :=
  match getAux w with
  | .ok r => r
  | .error _ => (none, none)

/-- Python's `str.lower()`: lowercase every character (`String.toLower`,
written structurally so it reduces). -/
def pyLower (s : String) : String := ⟨s.data.map Char.toLower⟩

/-- Python's substring test `p in s`, on character lists. -/
def occursIn : List Char → List Char → Bool
  | p, [] => p.isEmpty
  | p, s@(_ :: t) => p.isPrefixOf s || occursIn p t

/-- The fixed special-tag list of the main loop. -/
def SPECIAL_TAGS : List String := ["buildcache", "latest", "cache"]

/-- The per-tag outcome of `main`'s cleanup loop.  `delete d` is the branch
that calls `delete_tag(repo, digest)` with `digest = d`. -/
inductive Decision where
  | keepProtected : Decision
  | skipSpecial : Decision
  | skipUnresolvable : Decision
  | delete (digest : String) : Decision
  | keepRecent : Decision
deriving DecidableEq, Repr

/-- The per-tag decision logic of `main`: exact protected match, then
case-insensitive-tag pattern match, then special tags, then resolution via
`get_image_created_date`, then the strict age comparison
`created_date < cutoff_date` (wall-clock compare of naive datetimes). -/
def tagDecision (protectedTags protectedPatterns : List String) (w : World)
    (cutoff : Int) (tag : String) : Decision :=
  if tag ∈ protectedTags then .keepProtected
  else if protectedPatterns.any (fun p => occursIn p.data (pyLower tag).data) then .keepProtected
  else if tag ∈ SPECIAL_TAGS then .skipSpecial
  else
    match get_image_created_date w with
    | (none, _) => .skipUnresolvable
    | (some _, none) => .skipUnresolvable
    | (some dg, some created) =>
      if created.wall < cutoff then .delete dg else .keepRecent

/-- Modelled from the spec: the UTC-equivalent instant of an ISO-8601
timestamp with the given wall-clock value and timezone suffix (the spec's
"naive UTC-equivalent timestamp" for the input). -/
def specUtcWall (wall : Int) (tz : Option TzSpec) : Int :=
  wall - (match tz with
          | none => 0
          | some .z => 0
          | some (.off secs) => secs)

/-- Modelled from the spec: "the pattern occurs as a substring of the tag
under case-insensitive comparison". -/
def ciOccurs (p tag : String) : Bool :=
  occursIn (pyLower p).data (pyLower tag).data

/-- Build a `World` from the three negotiation responses (in `Accept`
order) plus the re-fetch and blob oracles. -/
def mkW (r1 r2 r3 : Except Unit ManifestResponse)
    (plat : String → Except Unit ManifestResponse)
    (blob : String → Except Unit BlobResponse) : World :=
  { manifestResp := fun t => match t with
      | .oci => r1
      | .dockerV2 => r2
      | .dockerV1 => r3,
    platformResp := plat, blobResp := blob }

/-- A 404 response (body never consulted). -/
def resp404 : ManifestResponse := ⟨404, none, none, .error ()⟩

/-- A 500 response (body never consulted). -/
def resp500 : ManifestResponse := ⟨500, none, none, .error ()⟩

/-- A manifest-request result that a scenario never consults. -/
def unusedResp : Except Unit ManifestResponse := .error ()

/-- A platform re-fetch oracle that a scenario never consults. -/
def noPlat : String → Except Unit ManifestResponse := fun _ => .error ()

/-- A blob oracle that a scenario never consults. -/
def noBlob : String → Except Unit BlobResponse := fun _ => .error ()

/-- World where the first negotiation attempt returns 404. -/
def w404only : World := mkW (.ok resp404) unusedResp unusedResp noPlat noBlob

/-- World where the first negotiation attempt raises a transport error. -/
def wNetFail : World := mkW (.error ()) unusedResp unusedResp noPlat noBlob

/-- World that resolves cleanly: 200 manifest with digest header
`sha256:abc`, config blob created at wall-clock 0 UTC. -/
def wDel : World :=
  mkW (.ok ⟨200, some "sha256:abc", none,
        .ok ⟨none, none, some ⟨"sha256:cfg"⟩, none⟩⟩)
    unusedResp unusedResp noPlat
    (fun _ => .ok ⟨200, .ok ⟨some (.valid 0 (some .z)), none⟩⟩)

/-- World where the digest is captured from the 200 manifest response but
the config-blob fetch then raises a transport error. -/
def wC2x : World :=
  mkW (.ok ⟨200, some "sha256:abc", some (.valid 5 none),
        .ok ⟨none, none, some ⟨"sha256:cfg"⟩, none⟩⟩)
    unusedResp unusedResp noPlat
    (fun _ => .error ())

/-- World whose config blob carries `created` with a `+01:00` offset
(wall-clock 100, offset 3600 seconds). -/
def w9 : World :=
  mkW (.ok ⟨200, some "sha256:abc", none,
        .ok ⟨none, none, some ⟨"sha256:cfg"⟩, none⟩⟩)
    unusedResp unusedResp noPlat
    (fun _ => .ok ⟨200, .ok ⟨some (.valid 100 (some (.off 3600))), none⟩⟩)

/-- An OCI index manifest with the given entries and legacy history. -/
def idxManifest (entries : List ManEntry) (hist : Option (List HistEntry)) : Manifest :=
  { mediaType := some OCI_INDEX, manifests := some entries, config := none, history := hist }

/-- World whose tag manifest is an OCI index. -/
def idxWorld (dgo : Option String) (entries : List ManEntry)
    (hist : Option (List HistEntry))
    (plat : String → Except Unit ManifestResponse)
    (blob : String → Except Unit BlobResponse) : World :=
  mkW (.ok ⟨200, dgo, none, .ok (idxManifest entries hist)⟩)
    unusedResp unusedResp plat blob

/-- A legacy-history fixture whose first `v1Compatibility` payload was
created at the given wall-clock UTC instant. -/
def v1Hist (wv : Int) : List HistEntry :=
  [⟨some (.valid ⟨some (.valid wv (some .z))⟩)⟩]

/-- A blob oracle answering every digest with a 200 config blob created at
the given wall-clock UTC instant. -/
def constBlob (w2 : Int) : String → Except Unit BlobResponse :=
  fun _ => .ok ⟨200, .ok ⟨some (.valid w2 (some .z)), none⟩⟩

/-- A platform re-fetch oracle answering every digest with a 200 manifest
carrying a `config` reference to `sha256:cfg2`. -/
def constPlat200 : String → Except Unit ManifestResponse :=
  fun _ => .ok ⟨200, none, none, .ok ⟨none, none, some ⟨"sha256:cfg2"⟩, none⟩⟩

/-- A platform re-fetch oracle answering every digest with a 404. -/
def constPlat404 : String → Except Unit ManifestResponse :=
  fun _ => .ok ⟨404, none, none, .error ()⟩

/-- Multi-arch witness world: index digest `sha256:idx`, two platform
entries, legacy history at wall 30; the re-fetch of the first entry
succeeds with a config manifest whose blob was created at wall 20. -/
def wC7a : World :=
  idxWorld (some "sha256:idx") [⟨"sha256:plat1"⟩, ⟨"sha256:plat2"⟩] (some (v1Hist 30))
    constPlat200 (constBlob 20)

/-- Multi-arch witness world: same index, but the re-fetch of the first
entry returns 404. -/
def wC7b : World :=
  idxWorld (some "sha256:idx") [⟨"sha256:plat1"⟩, ⟨"sha256:plat2"⟩] (some (v1Hist 30))
    constPlat404 noBlob

/-! ## Theorems -/

/-- Claim C1: the main loop issues a deletion (a `delete_tag` call) only
when resolution produced both a digest and a created date; a tag with an
unknown digest or unknown date is always skipped and never deleted, and the
digest passed to `delete_tag` is exactly the resolved one. -/
theorem c1_delete_requires_resolution (pt pp : List String) (w : World)
    (cutoff : Int) (tag d : String)
    (h : tagDecision pt pp w cutoff tag = .delete d) :
    (get_image_created_date w).1 = some d ∧
    (get_image_created_date w).2.isSome = true := by
  unfold tagDecision at h
  split at h
  · exact absurd h (by simp)
  · split at h
    · exact absurd h (by simp)
    · split at h
      · exact absurd h (by simp)
      · split at h
        next heq => exact absurd h (by simp)
        next heq => exact absurd h (by simp)
        next dg created heq =>
          rw [heq]
          split at h
          · injection h with hd
            subst hd
            exact ⟨rfl, rfl⟩
          · exact absurd h (by simp)

/-- Witness for C1: a concrete world that resolves to digest `sha256:abc`
with created date 0 and cutoff 100 yields `delete`, and both components of
the resolution are present. -/
theorem c1_witness :
    tagDecision [] [] wDel 100 "v1.0" = .delete "sha256:abc" ∧
    ((get_image_created_date wDel).1 = some "sha256:abc" ∧
     (get_image_created_date wDel).2.isSome = true) :=
  ⟨by decide,
   c1_delete_requires_resolution [] [] wDel 100 "v1.0" "sha256:abc" (by decide)⟩

/-- Claim C4: for a resolved, unprotected, non-special tag the age boundary
is exclusive: the decision is `delete` iff `created_at < cutoff_date`; in
particular `created_at = cutoff_date` yields `keepRecent`. -/
theorem c4_cutoff_boundary (pt pp : List String) (w : World) (cutoff : Int)
    (tag dg : String) (c : PyDateTime)
    (h1 : tag ∉ pt)
    (h2 : pp.any (fun p => occursIn p.data (pyLower tag).data) = false)
    (h3 : tag ∉ SPECIAL_TAGS)
    (h4 : get_image_created_date w = (some dg, some c)) :
    (tagDecision pt pp w cutoff tag = .delete dg ↔ c.wall < cutoff) ∧
    (c.wall = cutoff → tagDecision pt pp w cutoff tag = .keepRecent) := by
  unfold tagDecision
  rw [if_neg h1, if_neg (by simp [h2]), if_neg h3]
  simp only [h4]
  refine ⟨⟨fun hdel => ?_, fun hlt => ?_⟩, fun heqc => ?_⟩
  · by_contra hnlt
    rw [if_neg hnlt] at hdel
    exact absurd hdel (by simp)
  · rw [if_pos hlt]
  · rw [if_neg (by omega)]

/-- Witness for C4: with created wall-clock 0 and cutoff 100, the boundary
equivalence holds at a concrete resolved world. -/
theorem c4_witness :
    ("v1.0" ∉ ([] : List String) ∧
     ([] : List String).any (fun p => occursIn p.data (pyLower "v1.0").data) = false ∧
     "v1.0" ∉ SPECIAL_TAGS ∧
     get_image_created_date wDel = (some "sha256:abc", some ⟨0, none⟩)) ∧
    ((tagDecision [] [] wDel 100 "v1.0" = .delete "sha256:abc" ↔
        (⟨0, none⟩ : PyDateTime).wall < 100) ∧
     ((⟨0, none⟩ : PyDateTime).wall = 100 →
        tagDecision [] [] wDel 100 "v1.0" = .keepRecent)) :=
  ⟨⟨by decide, by rfl, by decide, by rfl⟩,
   c4_cutoff_boundary [] [] wDel 100 "v1.0" "sha256:abc" ⟨0, none⟩
     (by decide) (by rfl) (by decide) (by rfl)⟩

/-- Claim C6: an exact member of `protected_tags` is classified
`keepProtected` for every world and cutoff (so no manifest or date fetch
can influence it, even a failing one), and for every tag — including the
special tags, showing the protection check precedes the special-tag
check. -/
theorem c6_protected_first (pt pp : List String) (w : World) (cutoff : Int)
    (tag : String) (h : tag ∈ pt) :
    tagDecision pt pp w cutoff tag = .keepProtected := by
  unfold tagDecision
  rw [if_pos h]

/-- Witness for C6: `latest` is both protected and special, and resolution
in `wNetFail` would fail; the decision is still `keepProtected`. -/
theorem c6_witness :
    "latest" ∈ ["latest"] ∧
    tagDecision ["latest"] [] wNetFail 0 "latest" = .keepProtected :=
  ⟨by decide,
   c6_protected_first ["latest"] [] wNetFail 0 "latest" (by decide)⟩

/-- Counterexample to claim C2: in `wC2x` the 200 manifest response carries
`Docker-Content-Digest: sha256:abc` (captured by the negotiation loop) and a
`Last-Modified` header, but the config-blob fetch raises a transport error;
the single outer `except` then returns `(None, None)`, dropping the captured
digest instead of returning it with a `None` date, and no later chain step
(the `Last-Modified` header) is ever consulted. -/
theorem c2_counterexample :
    negotiate wC2x ACCEPT_TYPES =
      .ok (.success (some "sha256:abc")
        ⟨none, none, some ⟨"sha256:cfg"⟩, none⟩
        ⟨200, some "sha256:abc", some (.valid 5 none),
         .ok ⟨none, none, some ⟨"sha256:cfg"⟩, none⟩⟩) ∧
    get_image_created_date wC2x = (none, none) ∧
    (get_image_created_date wC2x).1 ≠ some "sha256:abc" :=
  ⟨rfl, rfl, by decide⟩

/-- Claim C2 as amended: only step outcomes that produce nothing without
raising (a non-200 response, a missing field) let the chain continue; a
raised network or parse failure anywhere in the chain aborts the whole
resolution through the outer handler and returns `(None, None)`, dropping
any digest already captured.  First conjunct: a raised config-blob fetch
drops the digest.  Second conjunct: a non-200 config-blob fetch falls
through to the `Last-Modified` step, keeping the digest. -/
theorem c2_amended_raise_aborts (dgo : Option String) (cd : String)
    (lm : Option LMStr) (r2 r3 : Except Unit ManifestResponse)
    (plat : String → Except Unit ManifestResponse) (wl : Int) :
    get_image_created_date
        (mkW (.ok ⟨200, dgo, lm, .ok ⟨none, none, some ⟨cd⟩, none⟩⟩)
          r2 r3 plat (fun _ => .error ())) = (none, none) ∧
    get_image_created_date
        (mkW (.ok ⟨200, dgo, some (.valid wl none), .ok ⟨none, none, some ⟨cd⟩, none⟩⟩)
          r2 r3 plat (fun _ => .ok ⟨500, .error ()⟩)) = (dgo, some ⟨wl, none⟩) :=
  ⟨rfl, rfl⟩

/-- Counterexample to claim C3: a transport failure during negotiation
produces exactly the same observable result as a 404 — `(None, None)` — so
it is not distinct from `NotFound`; the caller takes the same
skip-as-not-found branch (`digest is None`) in both cases. -/
theorem c3_counterexample :
    get_image_created_date wNetFail = (none, none) ∧
    get_image_created_date w404only = (none, none) ∧
    tagDecision [] [] wNetFail 0 "v1.0" = tagDecision [] [] w404only 0 "v1.0" :=
  ⟨rfl, rfl, rfl⟩

/-- Claim C3 as amended: a 404 on any negotiation attempt returns
`(None, None)` immediately without consulting the remaining accepted media
types (first and second conjuncts, with the later responses universally
quantified); a network/transport failure also yields `(None, None)`,
indistinguishable from `NotFound` (third conjunct); in both cases the main
loop skips the tag and never deletes it (last two conjuncts). -/
theorem c3_amended_404_and_transport (r2 r3 : Except Unit ManifestResponse)
    (plat : String → Except Unit ManifestResponse)
    (blob : String → Except Unit BlobResponse) (cutoff : Int) :
    get_image_created_date (mkW (.ok resp404) r2 r3 plat blob) = (none, none) ∧
    get_image_created_date (mkW (.ok resp500) (.ok resp404) r3 plat blob) = (none, none) ∧
    get_image_created_date (mkW (.error ()) r2 r3 plat blob) = (none, none) ∧
    tagDecision [] [] (mkW (.error ()) r2 r3 plat blob) cutoff "v1.0" = .skipUnresolvable ∧
    tagDecision [] [] (mkW (.ok resp404) r2 r3 plat blob) cutoff "v1.0" = .skipUnresolvable :=
  ⟨rfl, rfl, rfl, rfl, rfl⟩

/-- Claim C5: the date fallback chain runs in the exact order config-blob
`created`, config-blob `history`, `Last-Modified`, legacy `v1Compatibility`
history, first success winning.  Conjunct 1: a valid config-blob `created`
wins over an arbitrary `Last-Modified` header and arbitrary legacy history.
Conjunct 2: with `created` absent, the first config-history entry wins over
an arbitrary `Last-Modified`.  Conjunct 3: with no config at all, a valid
`Last-Modified` wins over arbitrary legacy history.  Conjunct 4: with no
config and no `Last-Modified`, the legacy history is used. -/
theorem c5_fallback_order (dgo : Option String) (lm : Option LMStr)
    (wallc wh wl wv : Int) (tzl : Option Int)
    (mh : Option (List HistEntry)) (ch : Option (List CfgHistEntry))
    (chrest : List CfgHistEntry) (mh2 : List HistEntry) (hrest : List HistEntry) :
    get_image_created_date
        (mkW (.ok ⟨200, dgo, lm, .ok ⟨none, none, some ⟨"sha256:cfg"⟩, mh⟩⟩)
          unusedResp unusedResp noPlat
          (fun _ => .ok ⟨200, .ok ⟨some (.valid wallc (some .z)), ch⟩⟩)) =
      (dgo, some ⟨wallc, none⟩) ∧
    get_image_created_date
        (mkW (.ok ⟨200, dgo, lm, .ok ⟨none, none, some ⟨"sha256:cfg"⟩, mh⟩⟩)
          unusedResp unusedResp noPlat
          (fun _ => .ok ⟨200, .ok ⟨none, some (⟨some (.valid wh (some .z))⟩ :: chrest)⟩⟩)) =
      (dgo, some ⟨wh, none⟩) ∧
    get_image_created_date
        (mkW (.ok ⟨200, dgo, some (.valid wl tzl), .ok ⟨none, none, none, some mh2⟩⟩)
          unusedResp unusedResp noPlat noBlob) =
      (dgo, some ⟨wl, none⟩) ∧
    get_image_created_date
        (mkW (.ok ⟨200, dgo, none, .ok ⟨none, none, none,
              some (⟨some (.valid ⟨some (.valid wv (some .z))⟩)⟩ :: hrest)⟩⟩)
          unusedResp unusedResp noPlat noBlob) =
      (dgo, some ⟨wv, none⟩) := by
  refine ⟨rfl, ?_, rfl, rfl⟩
  simp [get_image_created_date, getAux, negotiate, ACCEPT_TYPES, mkW, resolveAfter,
    multiArch, isIndexType, step1, step1Hist, step2, step3, parse_created, pyFromIsoZ,
    stripTz]

/-- Claim C7: a manifest whose media type is a multi-platform index with at
least one entry is resolved by re-fetching the first listed entry by its
digest (whatever entries follow); a 200 re-fetch supplies the manifest used
for date resolution (conjunct 1: the date comes from the re-fetched
manifest's config blob, not the index's own history), while a non-200
re-fetch degrades to the index's own metadata instead of failing
(conjunct 2: the index's legacy history is used). -/
theorem c7_multiarch_first_entry (dgo : Option String) (d1 : String)
    (rest : List ManEntry) (plat : String → Except Unit ManifestResponse)
    (blob : String → Except Unit BlobResponse) (w2 wv : Int) (st : Nat) :
    (plat d1 = .ok ⟨200, none, none, .ok ⟨none, none, some ⟨"sha256:cfg2"⟩, none⟩⟩ →
      get_image_created_date
          (idxWorld dgo (⟨d1⟩ :: rest) (some (v1Hist wv)) plat (constBlob w2)) =
        (dgo, some ⟨w2, none⟩)) ∧
    (plat d1 = .ok ⟨st, none, none, .error ()⟩ → st ≠ 200 →
      get_image_created_date
          (idxWorld dgo (⟨d1⟩ :: rest) (some (v1Hist wv)) plat blob) =
        (dgo, some ⟨wv, none⟩)) := by
  constructor
  · intro hplat
    simp [get_image_created_date, getAux, negotiate, ACCEPT_TYPES, idxWorld, mkW,
      idxManifest, resolveAfter, multiArch, isIndexType, hplat, step1, step2, step3,
      step1Hist, parse_created, pyFromIsoZ, stripTz, constBlob, v1Hist, pyJsonLoads,
      OCI_INDEX, MANIFEST_LIST_V2]
  · intro hplat hst
    simp [get_image_created_date, getAux, negotiate, ACCEPT_TYPES, idxWorld, mkW,
      idxManifest, resolveAfter, multiArch, isIndexType, hplat, hst, step1, step2,
      step3, step1Hist, parse_created, pyFromIsoZ, stripTz, v1Hist, pyJsonLoads,
      OCI_INDEX, MANIFEST_LIST_V2]

/-- Witness for C7: in `wC7a` the 200 re-fetch of the first entry yields the
platform manifest's date (wall 20, not the index history's 30); in `wC7b`
the 404 re-fetch degrades to the index's own history (wall 30). -/
theorem c7_witness :
    get_image_created_date wC7a = (some "sha256:idx", some ⟨20, none⟩) ∧
    get_image_created_date wC7b = (some "sha256:idx", some ⟨30, none⟩) :=
  ⟨(c7_multiarch_first_entry (some "sha256:idx") "sha256:plat1" [⟨"sha256:plat2"⟩]
      constPlat200 noBlob 20 30 404).1 rfl,
   (c7_multiarch_first_entry (some "sha256:idx") "sha256:plat1" [⟨"sha256:plat2"⟩]
      constPlat404 noBlob 20 30 404).2 rfl (by decide)⟩

/-- Counterexample to claim C8: pattern `FOO` occurs in tag `FOO` under
case-insensitive comparison, yet the tag is not classified `keepProtected`
(it falls through to resolution and is skipped): the code matches the
verbatim pattern against the lowercased tag only, so an uppercase pattern
never fires. -/
theorem c8_counterexample :
    ciOccurs "FOO" "FOO" = true ∧
    tagDecision [] ["FOO"] w404only 0 "FOO" = .skipUnresolvable :=
  ⟨by decide, by decide⟩

/-- Claim C8 as amended: if a `protected_patterns` entry occurs verbatim as
a substring of the lowercased tag, the classification is `keepProtected`
(the tag, and only the tag, is lowercased before matching). -/
theorem c8_amended_pattern_match (pt pp : List String) (w : World)
    (cutoff : Int) (tag p : String)
    (hp : p ∈ pp) (hocc : occursIn p.data (pyLower tag).data = true) :
    tagDecision pt pp w cutoff tag = .keepProtected := by
  have hany : pp.any (fun q => occursIn q.data (pyLower tag).data) = true :=
    List.any_eq_true.mpr ⟨p, hp, hocc⟩
  unfold tagDecision
  by_cases h1 : tag ∈ pt
  · rw [if_pos h1]
  · rw [if_neg h1, if_pos hany]

/-- Witness for C8 (amended): lowercase pattern `foo` occurs in the
lowercasing of tag `FOO-release`, which is classified `keepProtected`. -/
theorem c8_witness :
    ("foo" ∈ ["foo"] ∧ occursIn "foo".data (pyLower "FOO-release").data = true) ∧
    tagDecision [] ["foo"] w404only 0 "FOO-release" = .keepProtected :=
  ⟨⟨by decide, by decide⟩,
   c8_amended_pattern_match [] ["foo"] w404only 0 "FOO-release" "foo"
     (by decide) (by decide)⟩

/-- Counterexample to claim C9: a config-blob `created` value at wall-clock
100 with a `+01:00` (3600 s) offset is returned as naive wall 100, but its
UTC-equivalent instant is `100 - 3600`; `replace(tzinfo=None)` strips the
offset without converting, so the result is not UTC-equivalent for a
non-zero offset — neither at the parsing step nor through the full
resolution (`w9`). -/
theorem c9_counterexample :
    parse_created (.valid 100 (some (.off 3600))) = .ok ⟨100, none⟩ ∧
    get_image_created_date w9 = (some "sha256:abc", some ⟨100, none⟩) ∧
    specUtcWall 100 (some (.off 3600)) ≠ (100 : Int) :=
  ⟨rfl, rfl, by decide⟩

/-- Claim C9 as amended: step 1 parses the ISO timestamp (a trailing `Z`
normalized to the `+00:00` offset) and strips the timezone without offset
conversion, returning the input's wall-clock value as a naive timestamp for
any offset; the result is UTC-equivalent exactly in the `Z` (zero-offset)
case the registry normally emits. -/
theorem c9_amended_strip_no_conversion (wall : Int) (tz : Option TzSpec) :
    parse_created (.valid wall tz) = .ok ⟨wall, none⟩ ∧
    specUtcWall wall (some .z) = wall := by
  constructor
  · cases tz with
    | none => rfl
    | some t => rfl
  · simp [specUtcWall]

/-- Every successful pass through the date chain returns the digest that
was passed in from negotiation — no branch replaces it. -/
theorem resolveAfter_fst (w : World) (dg : Option String) (m : Manifest)
    (r : ManifestResponse) (p : Option String × Option PyDateTime)
    (h : resolveAfter w dg m r = .ok p) : p.1 = dg := by
  unfold resolveAfter at h
  split at h
  · exact absurd h (by simp)
  · split at h
    · exact absurd h (by simp)
    · injection h with h2; subst h2; rfl
    · split at h
      · exact absurd h (by simp)
      · injection h with h2; subst h2; rfl
      · split at h
        · exact absurd h (by simp)
        · injection h with h2; subst h2; rfl
        · injection h with h2; subst h2; rfl

/-- Claim C10: whenever `get_image_created_date` returns a digest, it is
exactly the `Docker-Content-Digest` header captured from the initial
tag-manifest response by the negotiation loop; the multi-arch re-fetch never
replaces it (in particular not with the first platform entry's digest). -/
theorem c10_digest_is_initial_header (w : World) (d : String)
    (h : (get_image_created_date w).1 = some d) :
    ∃ m r, negotiate w ACCEPT_TYPES = .ok (.success (some d) m r) := by
  rcases E : negotiate w ACCEPT_TYPES with e | n
  · have hval : get_image_created_date w = (none, none) := by
      unfold get_image_created_date getAux
      simp only [E]
    rw [hval] at h
    simp at h
  · cases n with
    | notFound =>
      have hval : get_image_created_date w = (none, none) := by
        unfold get_image_created_date getAux
        simp only [E]
      rw [hval] at h
      simp at h
    | noManifest =>
      have hval : get_image_created_date w = (none, none) := by
        unfold get_image_created_date getAux
        simp only [E]
      rw [hval] at h
      simp at h
    | success dg m r =>
      rcases R : resolveAfter w dg m r with e2 | p
      · have hval : get_image_created_date w = (none, none) := by
          unfold get_image_created_date getAux
          simp only [E, R]
        rw [hval] at h
        simp at h
      · have hval : get_image_created_date w = p := by
          unfold get_image_created_date getAux
          simp only [E, R]
        rw [hval] at h
        have hfst := resolveAfter_fst w dg m r p R
        rw [hfst] at h
        subst h
        exact ⟨m, r, rfl⟩

/-- Witness for C10: in the multi-arch world `wC7a` the first platform
entry has digest `sha256:plat1` and its re-fetch succeeds, yet the returned
digest is the index's own `sha256:idx` from the initial response header. -/
theorem c10_witness :
    (get_image_created_date wC7a).1 = some "sha256:idx" ∧
    ∃ m r, negotiate wC7a ACCEPT_TYPES = .ok (.success (some "sha256:idx") m r) :=
  ⟨by rfl, c10_digest_is_initial_header wC7a "sha256:idx" (by rfl)⟩
